import Mathlib

/-!
Client bootstrap of litmus-go: `pkg/clients/clientset.go`.

A shallow embedding of the five functions of `pkg/clients/clientset.go`.

The file is glue code around library calls, so the embedding makes every
library call explicit:

* a Go result pair `(value, err)` is a Lean pair `Option α × Option GoError`,
  where `none` stands for Go's `nil` on either side;
* the cluster libraries (`rest.InClusterConfig`, the deferred loader of
  `clientcmd`, the three `NewForConfig` constructors) and the command line are
  fields of an environment `Env`, one fixed environment per process;
* the mutable process-wide state (the flags registered on `flag.CommandLine`)
  and the sequence of library calls made so far are carried in a `World` that
  every function takes and returns;
* a call can return, panic, or terminate the process (`Outcome`).
-/

namespace Clients

/-! ## Errors (`error`, `github.com/pkg/errors`) -/

/-- Go `error` values. `leaf` is an error created by a library outside
`github.com/pkg/errors`, carrying the text of its `Error()` method;
`withMessage` and `withStack` are the two wrapper types of `pkg/errors`
(the program counters recorded by `withStack` are not represented). -/
inductive GoError where
  | leaf (msg : String)
  | withMessage (cause : GoError) (msg : String)
  | withStack (err : GoError)
  deriving DecidableEq, Repr

/-- The `Error()` method: `withMessage` prints `msg + ": " + cause.Error()`,
`withStack` prints the error it embeds. -/
def GoError.Error : GoError → String
  | .leaf msg => msg
  | .withMessage cause msg => msg ++ ": " ++ cause.Error
  | .withStack err => err.Error

/-- The `Cause()` method of the two wrapper types, the immediate cause;
`none` for an error that is not a `pkg/errors` wrapper. -/
def GoError.Cause : GoError → Option GoError
  | .leaf _ => none
  | .withMessage cause _ => some cause
  | .withStack err => some err

/-- The function `errors.Cause`: follows `Cause()` until it reaches an error
that has none. -/
def GoError.rootCause : GoError → GoError
  | .leaf msg => .leaf msg
  | .withMessage cause _ => cause.rootCause
  | .withStack err => err.rootCause

/-- The function `errors.Wrapf(err, format, args...)`, given the already
formatted message `msg = fmt.Sprintf(format, args...)`: `nil` for a `nil`
error, otherwise a `withStack` around a `withMessage` around `err`. -/
def Wrapf (err : Option GoError) (msg : String) : Option GoError :=
  match err with
  | none => none
  | some e => some (.withStack (.withMessage e msg))

/-! ## Environment, process state, outcomes -/

/-- What `flag.Parse()` does on the process's command line once the
`kubeconfig` flag is registered: it returns, leaving `value` in the flag's
variable (the default `""` when the flag is not on the command line), or it
terminates the process (`flag.CommandLine` is an `ExitOnError` flag set). -/
inductive ParseResult where
  | value (kubeconfig : String)
  | exit (code : Nat)
  deriving DecidableEq, Repr

/-- The libraries and inputs the file calls into, fixed for one process.
`Config`, `KC`, `LC`, `DC` are the referents of `*rest.Config`,
`*kubernetes.Clientset`, `*chaosClient.LitmuschaosV1alpha1Client` and
`dynamic.Interface`. -/
structure Env (Config KC LC DC : Type) where
  /-- Result of `flag.Parse()`. -/
  flagParse : ParseResult
  /-- Result of `restclient.InClusterConfig()`. -/
  InClusterConfig : Option Config × Option GoError
  /-- Result of `ClientConfig()` on the deferred loader built with the given
  `ExplicitPath` and cluster `Server` override. -/
  ClientConfig : (explicitPath : String) → (server : String) → Option Config × Option GoError
  /-- Result of `kubernetes.NewForConfig`. -/
  k8sNewForConfig : Option Config → Option KC × Option GoError
  /-- Result of `chaosClient.NewForConfig`. -/
  chaosNewForConfig : Option Config → Option LC × Option GoError
  /-- Result of `dynamic.NewForConfig`. -/
  dynamicNewForConfig : Option Config → Option DC × Option GoError

/-- One library call made by the file. -/
inductive Event (Config : Type) where
  | inClusterConfig
  | warningf (format : String) (arg : GoError)
  | clientConfig (explicitPath : String) (server : String)
  | k8sNewForConfig (config : Option Config)
  | chaosNewForConfig (config : Option Config)
  | dynamicNewForConfig (config : Option Config)
  deriving DecidableEq, Repr

/-- Process-wide mutable state: the names registered on `flag.CommandLine`
and the library calls made so far, oldest first. -/
structure World (Config : Type) where
  formal : List String
  trace : List (Event Config)
  deriving DecidableEq, Repr

/-- Records one library call at the end of the trace. -/
def World.emit {Config : Type} (w : World Config) (e : Event Config) : World Config :=
  { w with trace := w.trace ++ [e] }

/-- How a call ends: it returns a value, panics, or terminates the process. -/
inductive Outcome (α : Type) where
  | returned (a : α)
  | panicked (msg : String)
  | exited (code : Nat)
  deriving DecidableEq, Repr

/-- The struct `ClientSets`; every field is a pointer or an interface, `none`
is `nil`. -/
structure ClientSets (Config KC LC DC : Type) where
  KubeClient : Option KC
  LitmusClient : Option LC
  KubeConfig : Option Config
  DynamicClient : Option DC
  deriving DecidableEq, Repr

section Code

variable {Config KC LC DC : Type}

/-! ## The functions of `clientset.go` -/

/-- The format string of the `klog.Warningf` call of `buildConfigFromFlags`. -/
def warningFormat : String :=
  "Neither --kubeconfig nor --master was specified.  Using the inClusterConfig. Error creating inClusterConfig: "

/-- Lines 88-90 of `buildConfigFromFlags`: the deferred loader with
`ExplicitPath: kubeconfigPath` and `Server: masterUrl`, and its
`ClientConfig()`. -/
def deferredClientConfig (env : Env Config KC LC DC) (masterUrl kubeconfigPath : String)
    (w : World Config) : (Option Config × Option GoError) × World Config :=
  (env.ClientConfig kubeconfigPath masterUrl, w.emit (.clientConfig kubeconfigPath masterUrl))

/-- The function `buildConfigFromFlags(masterUrl, kubeconfigPath)`. -/
def buildConfigFromFlags (env : Env Config KC LC DC) (masterUrl kubeconfigPath : String)
    (w : World Config) : (Option Config × Option GoError) × World Config :=
  if kubeconfigPath = "" ∧ masterUrl = "" then
    let w1 := w.emit .inClusterConfig
    match env.InClusterConfig with
    | (kubeconfig, none) => ((kubeconfig, none), w1)
    | (_, some err) =>
      deferredClientConfig env masterUrl kubeconfigPath (w1.emit (.warningf warningFormat err))
  else
    deferredClientConfig env masterUrl kubeconfigPath w

/-- The function `getKubeConfig()`. `flag.String` panics when the name is
already registered on `flag.CommandLine` and registers it otherwise;
`flag.Parse` then returns or terminates the process; the master URL passed on
is the literal `""`. -/
def getKubeConfig (env : Env Config KC LC DC) (w : World Config) :
    Outcome (Option Config × Option GoError) × World Config :=
  if "kubeconfig" ∈ w.formal then
    (.panicked "flag redefined: kubeconfig", w)
  else
    let w1 : World Config := { w with formal := "kubeconfig" :: w.formal }
    match env.flagParse with
    | .exit code => (.exited code, w1)
    | .value kubeconfig =>
      let r := buildConfigFromFlags env "" kubeconfig w1
      (.returned r.1, r.2)

/-- The function `generateK8sClientSet(config)`; the message is
`fmt.Sprintf("Unable to generate kubernetes clientSet, err: %v: ", err)`. -/
def generateK8sClientSet (env : Env Config KC LC DC) (config : Option Config)
    (w : World Config) : (Option KC × Option GoError) × World Config :=
  let w1 := w.emit (.k8sNewForConfig config)
  match env.k8sNewForConfig config with
  | (_, some err) =>
    ((none, Wrapf (some err) ("Unable to generate kubernetes clientSet, err: " ++ err.Error ++ ": ")), w1)
  | (k8sClientSet, none) => ((k8sClientSet, none), w1)

/-- The function `generateLitmusClientSet(config)`; the message is
`fmt.Sprintf("Unable to create LitmusClientSet, err: %v", err)`. -/
def generateLitmusClientSet (env : Env Config KC LC DC) (config : Option Config)
    (w : World Config) : (Option LC × Option GoError) × World Config :=
  let w1 := w.emit (.chaosNewForConfig config)
  match env.chaosNewForConfig config with
  | (_, some err) =>
    ((none, Wrapf (some err) ("Unable to create LitmusClientSet, err: " ++ err.Error)), w1)
  | (litmusClientSet, none) => ((litmusClientSet, none), w1)

/-- The method `(*ClientSets).GenerateClientSetFromKubeConfig()` on a non-nil
receiver: the result is how the call ends, the receiver after the call and
the process state after the call. -/
def GenerateClientSetFromKubeConfig (env : Env Config KC LC DC)
    (clientSets : ClientSets Config KC LC DC) (w : World Config) :
    Outcome (Option GoError) × ClientSets Config KC LC DC × World Config :=
  match getKubeConfig env w with
  | (.panicked msg, w1) => (.panicked msg, clientSets, w1)
  | (.exited code, w1) => (.exited code, clientSets, w1)
  | (.returned (_, some err), w1) => (.returned (some err), clientSets, w1)
  | (.returned (config, none), w1) =>
    match generateK8sClientSet env config w1 with
    | ((_, some err), w2) => (.returned (some err), clientSets, w2)
    | ((k8sClientSet, none), w2) =>
      match generateLitmusClientSet env config w2 with
      | ((_, some err), w3) => (.returned (some err), clientSets, w3)
      | ((litmusClientSet, none), w3) =>
        let w4 := w3.emit (.dynamicNewForConfig config)
        match env.dynamicNewForConfig config with
        | (_, some err) => (.returned (some err), clientSets, w4)
        | (dynamicClientSet, none) =>
          (.returned none,
            { KubeClient := k8sClientSet
              LitmusClient := litmusClientSet
              KubeConfig := config
              DynamicClient := dynamicClientSet },
            w4)

/-! ## Observations on traces -/

/-- The number of `klog.Warningf` calls in a list of library calls. -/
def warningCount : List (Event Config) → Nat
  | [] => 0
  | .warningf _ _ :: t => warningCount t + 1
  | _ :: t => warningCount t

/-- The text `s` begins with the text `head`. -/
def beginsWith (s head : String) : Prop :=
  s.data.take head.data.length = head.data

instance (s head : String) : Decidable (beginsWith s head) :=
  inferInstanceAs (Decidable (s.data.take head.data.length = head.data))

end Code

/-! ## Concrete environments -/

/-- A process state in which nothing is registered and nothing was called. -/
def freshWorld : World String := { formal := [], trace := [] }

/-- A receiver whose four fields are `nil`. -/
def emptyClientSets : ClientSets String Nat Nat Nat :=
  { KubeClient := none, LitmusClient := none, KubeConfig := none, DynamicClient := none }

/-- An environment outside a cluster: the in-cluster attempt fails, the
loader reads a file for a non-empty explicit path and finds nothing
otherwise, `--kubeconfig /etc/app/config` is on the command line, and the
three constructors succeed. -/
def fileEnv : Env String Nat Nat Nat :=
  { flagParse := .value "/etc/app/config"
    InClusterConfig := (none, some (.leaf "not in cluster"))
    ClientConfig := fun explicitPath server =>
      if explicitPath = "" ∧ server = "" then (none, some (.leaf "no configuration"))
      else (some (explicitPath ++ "@" ++ server), none)
    k8sNewForConfig := fun _ => (some 1, none)
    chaosNewForConfig := fun _ => (some 2, none)
    dynamicNewForConfig := fun _ => (some 3, none) }

/-- An environment inside a cluster with an empty command line: the
in-cluster attempt succeeds. -/
def clusterEnv : Env String Nat Nat Nat :=
  { fileEnv with
    flagParse := .value ""
    InClusterConfig := (some "in-cluster", none) }

/-- The environment `fileEnv` with an empty command line: no configuration
source is available. -/
def bareEnv : Env String Nat Nat Nat :=
  { fileEnv with flagParse := .value "" }

/-- The environment `fileEnv` with a failing general constructor. -/
def k8sFailEnv : Env String Nat Nat Nat :=
  { fileEnv with k8sNewForConfig := fun _ => (none, some (.leaf "bad host")) }

/-- The environment `fileEnv` with a failing custom-resource constructor. -/
def litmusFailEnv : Env String Nat Nat Nat :=
  { fileEnv with chaosNewForConfig := fun _ => (none, some (.leaf "bad group")) }

/-- The environment `fileEnv` with a failing dynamic constructor. -/
def dynamicFailEnv : Env String Nat Nat Nat :=
  { fileEnv with dynamicNewForConfig := fun _ => (none, some (.leaf "bad transport")) }

section Lemmas

variable {Config KC LC DC : Type}

/-! ## `buildConfigFromFlags` -/

theorem emit_trace (w : World Config) (e : Event Config) :
    (w.emit e).trace = w.trace ++ [e] := rfl

theorem emit_formal (w : World Config) (e : Event Config) :
    (w.emit e).formal = w.formal := rfl

theorem warningCount_append (l1 l2 : List (Event Config)) :
    warningCount (l1 ++ l2) = warningCount l1 + warningCount l2 := by
  induction l1 with
  | nil => simp [warningCount]
  | cons e t ih => cases e <;> (simp [warningCount, ih]; try omega)

theorem build_inCluster_ok (env : Env Config KC LC DC) (w : World Config)
    (kubeconfig : Option Config) (h : env.InClusterConfig = (kubeconfig, none)) :
    buildConfigFromFlags env "" "" w = ((kubeconfig, none), w.emit .inClusterConfig) := by
  simp [buildConfigFromFlags, h]

theorem build_inCluster_err (env : Env Config KC LC DC) (w : World Config)
    (c : Option Config) (err : GoError) (h : env.InClusterConfig = (c, some err)) :
    buildConfigFromFlags env "" "" w =
      (env.ClientConfig "" "",
        ((w.emit .inClusterConfig).emit (.warningf warningFormat err)).emit
          (.clientConfig "" "")) := by
  simp [buildConfigFromFlags, h, deferredClientConfig]

theorem build_explicit (env : Env Config KC LC DC) (masterUrl kubeconfigPath : String)
    (w : World Config) (h : kubeconfigPath ≠ "" ∨ masterUrl ≠ "") :
    buildConfigFromFlags env masterUrl kubeconfigPath w =
      (env.ClientConfig kubeconfigPath masterUrl,
        w.emit (.clientConfig kubeconfigPath masterUrl)) := by
  have h2 : ¬(kubeconfigPath = "" ∧ masterUrl = "") := by
    rintro ⟨h1, h3⟩
    rcases h with h | h
    · exact h h1
    · exact h h3
  simp [buildConfigFromFlags, h2, deferredClientConfig]

theorem build_formal (env : Env Config KC LC DC) (masterUrl kubeconfigPath : String)
    (w : World Config) :
    (buildConfigFromFlags env masterUrl kubeconfigPath w).2.formal = w.formal := by
  unfold buildConfigFromFlags deferredClientConfig
  split
  · split <;> rfl
  · rfl

/-! ## `getKubeConfig` -/

theorem getKube_panic (env : Env Config KC LC DC) (w : World Config)
    (h : "kubeconfig" ∈ w.formal) :
    getKubeConfig env w = (.panicked "flag redefined: kubeconfig", w) := by
  simp [getKubeConfig, h]

theorem getKube_exit (env : Env Config KC LC DC) (w : World Config) (code : Nat)
    (h : "kubeconfig" ∉ w.formal) (hp : env.flagParse = .exit code) :
    getKubeConfig env w = (.exited code, { w with formal := "kubeconfig" :: w.formal }) := by
  simp [getKubeConfig, h, hp]

theorem getKube_value (env : Env Config KC LC DC) (w : World Config) (v : String)
    (h : "kubeconfig" ∉ w.formal) (hp : env.flagParse = .value v) :
    getKubeConfig env w =
      (.returned (buildConfigFromFlags env "" v { w with formal := "kubeconfig" :: w.formal }).1,
        (buildConfigFromFlags env "" v { w with formal := "kubeconfig" :: w.formal }).2) := by
  simp [getKubeConfig, h, hp]

theorem getKube_returned_free (env : Env Config KC LC DC) (w w1 : World Config)
    (r : Option Config × Option GoError) (h : getKubeConfig env w = (.returned r, w1)) :
    "kubeconfig" ∉ w.formal := by
  intro hm
  rw [getKube_panic env w hm] at h
  simp at h

theorem getKube_returned_formal (env : Env Config KC LC DC) (w w1 : World Config)
    (r : Option Config × Option GoError) (h : getKubeConfig env w = (.returned r, w1)) :
    w1.formal = "kubeconfig" :: w.formal := by
  have hf := getKube_returned_free env w w1 r h
  cases hp : env.flagParse with
  | exit code => rw [getKube_exit env w code hf hp] at h; simp at h
  | value v =>
    rw [getKube_value env w v hf hp] at h
    simp only [Prod.mk.injEq] at h
    rw [← h.2, build_formal]

/-! ## `GenerateClientSetFromKubeConfig`, path by path -/

theorem gen_panic (env : Env Config KC LC DC) (cs : ClientSets Config KC LC DC)
    (w w1 : World Config) (msg : String) (h : getKubeConfig env w = (.panicked msg, w1)) :
    GenerateClientSetFromKubeConfig env cs w = (.panicked msg, cs, w1) := by
  simp [GenerateClientSetFromKubeConfig, h]

theorem gen_exit (env : Env Config KC LC DC) (cs : ClientSets Config KC LC DC)
    (w w1 : World Config) (code : Nat) (h : getKubeConfig env w = (.exited code, w1)) :
    GenerateClientSetFromKubeConfig env cs w = (.exited code, cs, w1) := by
  simp [GenerateClientSetFromKubeConfig, h]

theorem gen_config_err (env : Env Config KC LC DC) (cs : ClientSets Config KC LC DC)
    (w w1 : World Config) (config : Option Config) (e : GoError)
    (h : getKubeConfig env w = (.returned (config, some e), w1)) :
    GenerateClientSetFromKubeConfig env cs w = (.returned (some e), cs, w1) := by
  simp [GenerateClientSetFromKubeConfig, h]

theorem gen_k8s_err (env : Env Config KC LC DC) (cs : ClientSets Config KC LC DC)
    (w w1 : World Config) (config : Option Config) (k : Option KC) (e : GoError)
    (h : getKubeConfig env w = (.returned (config, none), w1))
    (hk : env.k8sNewForConfig config = (k, some e)) :
    GenerateClientSetFromKubeConfig env cs w =
      (.returned (Wrapf (some e)
          ("Unable to generate kubernetes clientSet, err: " ++ e.Error ++ ": ")),
        cs, w1.emit (.k8sNewForConfig config)) := by
  simp [GenerateClientSetFromKubeConfig, h, generateK8sClientSet, hk, Wrapf]

theorem gen_litmus_err (env : Env Config KC LC DC) (cs : ClientSets Config KC LC DC)
    (w w1 : World Config) (config : Option Config) (k : Option KC) (l : Option LC)
    (e : GoError) (h : getKubeConfig env w = (.returned (config, none), w1))
    (hk : env.k8sNewForConfig config = (k, none))
    (hl : env.chaosNewForConfig config = (l, some e)) :
    GenerateClientSetFromKubeConfig env cs w =
      (.returned (Wrapf (some e) ("Unable to create LitmusClientSet, err: " ++ e.Error)),
        cs, (w1.emit (.k8sNewForConfig config)).emit (.chaosNewForConfig config)) := by
  simp [GenerateClientSetFromKubeConfig, h, generateK8sClientSet, hk, generateLitmusClientSet,
    hl, Wrapf]

theorem gen_dynamic_err (env : Env Config KC LC DC) (cs : ClientSets Config KC LC DC)
    (w w1 : World Config) (config : Option Config) (k : Option KC) (l : Option LC)
    (d : Option DC) (e : GoError) (h : getKubeConfig env w = (.returned (config, none), w1))
    (hk : env.k8sNewForConfig config = (k, none))
    (hl : env.chaosNewForConfig config = (l, none))
    (hd : env.dynamicNewForConfig config = (d, some e)) :
    GenerateClientSetFromKubeConfig env cs w =
      (.returned (some e), cs,
        ((w1.emit (.k8sNewForConfig config)).emit (.chaosNewForConfig config)).emit
          (.dynamicNewForConfig config)) := by
  simp [GenerateClientSetFromKubeConfig, h, generateK8sClientSet, hk, generateLitmusClientSet,
    hl, hd]

theorem gen_ok (env : Env Config KC LC DC) (cs : ClientSets Config KC LC DC)
    (w w1 : World Config) (config : Option Config) (k : Option KC) (l : Option LC)
    (d : Option DC) (h : getKubeConfig env w = (.returned (config, none), w1))
    (hk : env.k8sNewForConfig config = (k, none))
    (hl : env.chaosNewForConfig config = (l, none))
    (hd : env.dynamicNewForConfig config = (d, none)) :
    GenerateClientSetFromKubeConfig env cs w =
      (.returned none,
        { KubeClient := k, LitmusClient := l, KubeConfig := config, DynamicClient := d },
        ((w1.emit (.k8sNewForConfig config)).emit (.chaosNewForConfig config)).emit
          (.dynamicNewForConfig config)) := by
  simp [GenerateClientSetFromKubeConfig, h, generateK8sClientSet, hk, generateLitmusClientSet,
    hl, hd]

theorem three_emits (w : World Config) (a b c : Event Config) :
    (((w.emit a).emit b).emit c).trace = w.trace ++ [a, b, c] := by
  simp [emit_trace]

theorem two_emits (w : World Config) (a b : Event Config) :
    ((w.emit a).emit b).trace = w.trace ++ [a, b] := by
  simp [emit_trace]

/-- Every call of `GenerateClientSetFromKubeConfig` follows one of seven
paths, determined by how `getKubeConfig` ends and by the first constructor
that fails. -/
theorem gen_cases (env : Env Config KC LC DC) (cs : ClientSets Config KC LC DC)
    (w : World Config) :
    (∃ msg w1, getKubeConfig env w = (.panicked msg, w1) ∧
      GenerateClientSetFromKubeConfig env cs w = (.panicked msg, cs, w1)) ∨
    (∃ code w1, getKubeConfig env w = (.exited code, w1) ∧
      GenerateClientSetFromKubeConfig env cs w = (.exited code, cs, w1)) ∨
    (∃ config e w1, getKubeConfig env w = (.returned (config, some e), w1) ∧
      GenerateClientSetFromKubeConfig env cs w = (.returned (some e), cs, w1)) ∨
    (∃ config w1 k e, getKubeConfig env w = (.returned (config, none), w1) ∧
      env.k8sNewForConfig config = (k, some e) ∧
      GenerateClientSetFromKubeConfig env cs w =
        (.returned (Wrapf (some e)
            ("Unable to generate kubernetes clientSet, err: " ++ e.Error ++ ": ")),
          cs, w1.emit (.k8sNewForConfig config))) ∨
    (∃ config w1 k l e, getKubeConfig env w = (.returned (config, none), w1) ∧
      env.k8sNewForConfig config = (k, none) ∧
      env.chaosNewForConfig config = (l, some e) ∧
      GenerateClientSetFromKubeConfig env cs w =
        (.returned (Wrapf (some e) ("Unable to create LitmusClientSet, err: " ++ e.Error)),
          cs, (w1.emit (.k8sNewForConfig config)).emit (.chaosNewForConfig config))) ∨
    (∃ config w1 k l d e, getKubeConfig env w = (.returned (config, none), w1) ∧
      env.k8sNewForConfig config = (k, none) ∧
      env.chaosNewForConfig config = (l, none) ∧
      env.dynamicNewForConfig config = (d, some e) ∧
      GenerateClientSetFromKubeConfig env cs w =
        (.returned (some e), cs,
          ((w1.emit (.k8sNewForConfig config)).emit (.chaosNewForConfig config)).emit
            (.dynamicNewForConfig config))) ∨
    (∃ config w1 k l d, getKubeConfig env w = (.returned (config, none), w1) ∧
      env.k8sNewForConfig config = (k, none) ∧
      env.chaosNewForConfig config = (l, none) ∧
      env.dynamicNewForConfig config = (d, none) ∧
      GenerateClientSetFromKubeConfig env cs w =
        (.returned none,
          { KubeClient := k, LitmusClient := l, KubeConfig := config, DynamicClient := d },
          ((w1.emit (.k8sNewForConfig config)).emit (.chaosNewForConfig config)).emit
            (.dynamicNewForConfig config))) := by
  rcases hg : getKubeConfig env w with ⟨o, w1⟩
  cases o with
  | panicked msg => exact Or.inl ⟨msg, w1, rfl, gen_panic env cs w w1 msg hg⟩
  | exited code => exact Or.inr (Or.inl ⟨code, w1, rfl, gen_exit env cs w w1 code hg⟩)
  | returned r =>
    obtain ⟨config, cerr⟩ := r
    cases cerr with
    | some e =>
      exact Or.inr (Or.inr (Or.inl ⟨config, e, w1, rfl, gen_config_err env cs w w1 config e hg⟩))
    | none =>
      rcases hk : env.k8sNewForConfig config with ⟨k, ke⟩
      cases ke with
      | some e =>
        exact Or.inr (Or.inr (Or.inr (Or.inl
          ⟨config, w1, k, e, rfl, hk, gen_k8s_err env cs w w1 config k e hg hk⟩)))
      | none =>
        rcases hl : env.chaosNewForConfig config with ⟨l, le⟩
        cases le with
        | some e =>
          exact Or.inr (Or.inr (Or.inr (Or.inr (Or.inl
            ⟨config, w1, k, l, e, rfl, hk, hl,
              gen_litmus_err env cs w w1 config k l e hg hk hl⟩))))
        | none =>
          rcases hd : env.dynamicNewForConfig config with ⟨d, de⟩
          cases de with
          | some e =>
            exact Or.inr (Or.inr (Or.inr (Or.inr (Or.inr (Or.inl
              ⟨config, w1, k, l, d, e, rfl, hk, hl, hd,
                gen_dynamic_err env cs w w1 config k l d e hg hk hl hd⟩)))))
          | none =>
            exact Or.inr (Or.inr (Or.inr (Or.inr (Or.inr (Or.inr
              ⟨config, w1, k, l, d, rfl, hk, hl, hd,
                gen_ok env cs w w1 config k l d hg hk hl hd⟩)))))

theorem wrapper_ne (e : GoError) (msg : String) :
    GoError.withStack (.withMessage e msg) ≠ e := by
  intro h
  have hs := congrArg sizeOf h
  simp at hs
  omega

theorem build_calls (env : Env Config KC LC DC) (masterUrl kubeconfigPath : String)
    (w : World Config) :
    ∃ calls, (buildConfigFromFlags env masterUrl kubeconfigPath w).2.trace = w.trace ++ calls ∧
      (Event.inClusterConfig ∈ calls ↔ kubeconfigPath = "" ∧ masterUrl = "") ∧
      (∀ p s, Event.clientConfig p s ∈ calls → p = kubeconfigPath ∧ s = masterUrl) := by
  by_cases hb : kubeconfigPath = "" ∧ masterUrl = ""
  · obtain ⟨hp, hm⟩ := hb
    subst hp hm
    rcases h : env.InClusterConfig with ⟨c, oe⟩
    cases oe with
    | none =>
      rw [build_inCluster_ok env w c h]
      exact ⟨[.inClusterConfig], rfl, by simp, by simp⟩
    | some err =>
      rw [build_inCluster_err env w c err h]
      refine ⟨[.inClusterConfig, .warningf warningFormat err, .clientConfig "" ""],
        by simp [emit_trace], by simp, ?_⟩
      intro p s hm
      simp at hm
      exact ⟨hm.1, hm.2⟩
  · have h2 : kubeconfigPath ≠ "" ∨ masterUrl ≠ "" := by
      by_contra hc
      push_neg at hc
      exact hb hc
    rw [build_explicit env masterUrl kubeconfigPath w h2]
    refine ⟨[.clientConfig kubeconfigPath masterUrl], rfl, by simp [hb], ?_⟩
    intro p s hm
    simp at hm
    exact ⟨hm.1, hm.2⟩

theorem gen_calls (env : Env Config KC LC DC) (cs : ClientSets Config KC LC DC)
    (w : World Config) :
    ∃ calls, (GenerateClientSetFromKubeConfig env cs w).2.2.trace =
        (getKubeConfig env w).2.trace ++ calls ∧
      Event.inClusterConfig ∉ calls ∧ ∀ p s, Event.clientConfig p s ∉ calls := by
  rcases gen_cases env cs w with ⟨msg, w1, hg, h⟩ | ⟨code, w1, hg, h⟩ | ⟨config, e, w1, hg, h⟩ |
    ⟨config, w1, k, e, hg, _, h⟩ | ⟨config, w1, k, l, e, hg, _, _, h⟩ |
    ⟨config, w1, k, l, d, e, hg, _, _, _, h⟩ | ⟨config, w1, k, l, d, hg, _, _, _, h⟩
  · exact ⟨[], by rw [h, hg]; simp, by simp, by simp⟩
  · exact ⟨[], by rw [h, hg]; simp, by simp, by simp⟩
  · exact ⟨[], by rw [h, hg]; simp, by simp, by simp⟩
  · exact ⟨[.k8sNewForConfig config], by rw [h, hg]; rfl, by simp, by simp⟩
  · exact ⟨[.k8sNewForConfig config, .chaosNewForConfig config],
      by rw [h, hg]; exact two_emits _ _ _, by simp, by simp⟩
  · exact ⟨[.k8sNewForConfig config, .chaosNewForConfig config, .dynamicNewForConfig config],
      by rw [h, hg]; exact three_emits _ _ _ _, by simp, by simp⟩
  · exact ⟨[.k8sNewForConfig config, .chaosNewForConfig config, .dynamicNewForConfig config],
      by rw [h, hg]; exact three_emits _ _ _ _, by simp, by simp⟩

theorem gen_returned_formal (env : Env Config KC LC DC) (cs cs1 : ClientSets Config KC LC DC)
    (w w1 : World Config) (err : Option GoError)
    (h : GenerateClientSetFromKubeConfig env cs w = (.returned err, cs1, w1)) :
    "kubeconfig" ∉ w.formal ∧ w1.formal = "kubeconfig" :: w.formal := by
  rcases gen_cases env cs w with ⟨msg, w0, hg, hgen⟩ | ⟨code, w0, hg, hgen⟩ |
    ⟨config, e, w0, hg, hgen⟩ | ⟨config, w0, k, e, hg, _, hgen⟩ |
    ⟨config, w0, k, l, e, hg, _, _, hgen⟩ | ⟨config, w0, k, l, d, e, hg, _, _, _, hgen⟩ |
    ⟨config, w0, k, l, d, hg, _, _, _, hgen⟩
  · rw [hgen] at h; simp at h
  · rw [hgen] at h; simp at h
  all_goals
    rw [hgen] at h
    simp only [Prod.mk.injEq] at h
    refine ⟨getKube_returned_free env w w0 _ hg, ?_⟩
    rw [← h.2.2]
    exact getKube_returned_formal env w w0 _ hg

/-! ## The claims -/

/-- C5: with both arguments empty, `buildConfigFromFlags` calls the in-cluster
configuration first. When that succeeds its config is returned with a nil
error and the only library call made is the in-cluster one (the loader is not
consulted). When it fails the returned pair is exactly the pair of the loader
called with an empty explicit path and an empty server override, reached after
the in-cluster call and the warning. The call fails exactly when both the
in-cluster attempt and that loader fail. -/
theorem buildConfigFromFlags_both_empty (env : Env Config KC LC DC) (w : World Config) :
    (∀ kubeconfig, env.InClusterConfig = (kubeconfig, none) →
      (buildConfigFromFlags env "" "" w).1 = (kubeconfig, none) ∧
      (buildConfigFromFlags env "" "" w).2.trace = w.trace ++ [.inClusterConfig]) ∧
    (∀ c err, env.InClusterConfig = (c, some err) →
      (buildConfigFromFlags env "" "" w).1 = env.ClientConfig "" "" ∧
      (buildConfigFromFlags env "" "" w).2.trace =
        w.trace ++ [.inClusterConfig, .warningf warningFormat err, .clientConfig "" ""]) ∧
    ((buildConfigFromFlags env "" "" w).1.2 ≠ none ↔
      env.InClusterConfig.2 ≠ none ∧ (env.ClientConfig "" "").2 ≠ none) := by
  refine ⟨?_, ?_, ?_⟩
  · intro kubeconfig h
    rw [build_inCluster_ok env w kubeconfig h]
    exact ⟨rfl, rfl⟩
  · intro c err h
    rw [build_inCluster_err env w c err h]
    refine ⟨rfl, ?_⟩
    simp [emit_trace]
  · rcases h : env.InClusterConfig with ⟨c, oe⟩
    cases oe with
    | none => rw [build_inCluster_ok env w c h]; simp
    | some err => rw [build_inCluster_err env w c err h]; simp

/-- Witness of C5: inside a cluster the in-cluster config is returned and the
loader is not called; outside, with nothing to discover, the loader's failure
is the result. -/
theorem buildConfigFromFlags_both_empty_witness :
    ((buildConfigFromFlags clusterEnv "" "" freshWorld).1 = (some "in-cluster", none) ∧
      (buildConfigFromFlags clusterEnv "" "" freshWorld).2.trace =
        freshWorld.trace ++ [.inClusterConfig]) ∧
    ((buildConfigFromFlags bareEnv "" "" freshWorld).1 = bareEnv.ClientConfig "" "" ∧
      (buildConfigFromFlags bareEnv "" "" freshWorld).2.trace =
        freshWorld.trace ++ [.inClusterConfig, .warningf warningFormat (.leaf "not in cluster"),
          .clientConfig "" ""]) :=
  ⟨(buildConfigFromFlags_both_empty clusterEnv freshWorld).1 (some "in-cluster") rfl,
    (buildConfigFromFlags_both_empty bareEnv freshWorld).2.1 none (.leaf "not in cluster") rfl⟩

/-- C6: when at least one of `masterUrl` and `kubeconfigPath` is non-empty,
`buildConfigFromFlags` makes exactly one library call, the deferred loader
with `ExplicitPath = kubeconfigPath` and `Server = masterUrl` (no in-cluster
attempt), and returns exactly that loader's pair; so whenever the loader
succeeds the result is its config with a nil error. -/
theorem buildConfigFromFlags_explicit (env : Env Config KC LC DC)
    (masterUrl kubeconfigPath : String) (w : World Config)
    (h : kubeconfigPath ≠ "" ∨ masterUrl ≠ "") :
    (buildConfigFromFlags env masterUrl kubeconfigPath w).1 =
      env.ClientConfig kubeconfigPath masterUrl ∧
    (buildConfigFromFlags env masterUrl kubeconfigPath w).2.trace =
      w.trace ++ [.clientConfig kubeconfigPath masterUrl] ∧
    (∀ config, env.ClientConfig kubeconfigPath masterUrl = (config, none) →
      (buildConfigFromFlags env masterUrl kubeconfigPath w).1 = (config, none)) := by
  rw [build_explicit env masterUrl kubeconfigPath w h]
  exact ⟨rfl, rfl, fun config hc => hc⟩

/-- Witness of C6: the two scenarios of the specification, the explicit path
`/etc/app/config` with an empty override and the empty path with the override
`https://10.0.0.1:6443`. -/
theorem buildConfigFromFlags_explicit_witness :
    ((buildConfigFromFlags fileEnv "" "/etc/app/config" freshWorld).1 =
        fileEnv.ClientConfig "/etc/app/config" "" ∧
      (buildConfigFromFlags fileEnv "" "/etc/app/config" freshWorld).2.trace =
        freshWorld.trace ++ [.clientConfig "/etc/app/config" ""]) ∧
    ((buildConfigFromFlags fileEnv "https://10.0.0.1:6443" "" freshWorld).1 =
        fileEnv.ClientConfig "" "https://10.0.0.1:6443" ∧
      (buildConfigFromFlags fileEnv "https://10.0.0.1:6443" "" freshWorld).2.trace =
        freshWorld.trace ++ [.clientConfig "" "https://10.0.0.1:6443"]) ∧
    (buildConfigFromFlags fileEnv "" "/etc/app/config" freshWorld).1 =
      (some "/etc/app/config@", none) :=
  ⟨⟨(buildConfigFromFlags_explicit fileEnv "" "/etc/app/config" freshWorld
        (Or.inl (by decide))).1,
      (buildConfigFromFlags_explicit fileEnv "" "/etc/app/config" freshWorld
        (Or.inl (by decide))).2.1⟩,
    ⟨(buildConfigFromFlags_explicit fileEnv "https://10.0.0.1:6443" "" freshWorld
        (Or.inr (by decide))).1,
      (buildConfigFromFlags_explicit fileEnv "https://10.0.0.1:6443" "" freshWorld
        (Or.inr (by decide))).2.1⟩,
    (buildConfigFromFlags_explicit fileEnv "" "/etc/app/config" freshWorld
      (Or.inl (by decide))).2.2 (some "/etc/app/config@") (by decide)⟩

/-- C9: the library calls `buildConfigFromFlags` adds to the trace contain
one warning when both arguments are empty and the in-cluster attempt fails,
and none in every other case (in-cluster success, or either argument
non-empty); when a warning was emitted the function went on to the loader,
which is its last call, and returns the loader's pair. -/
theorem buildConfigFromFlags_warning (env : Env Config KC LC DC)
    (masterUrl kubeconfigPath : String) (w : World Config) :
    ∃ calls, (buildConfigFromFlags env masterUrl kubeconfigPath w).2.trace = w.trace ++ calls ∧
      warningCount calls =
        (if kubeconfigPath = "" ∧ masterUrl = "" ∧ env.InClusterConfig.2 ≠ none then 1 else 0) ∧
      (0 < warningCount calls →
        (buildConfigFromFlags env masterUrl kubeconfigPath w).1 =
          env.ClientConfig kubeconfigPath masterUrl ∧
        calls.getLast? = some (.clientConfig kubeconfigPath masterUrl)) := by
  by_cases hb : kubeconfigPath = "" ∧ masterUrl = ""
  · obtain ⟨hp, hm⟩ := hb
    subst hp hm
    rcases h : env.InClusterConfig with ⟨c, oe⟩
    cases oe with
    | none =>
      rw [build_inCluster_ok env w c h]
      exact ⟨[.inClusterConfig], rfl, by simp [warningCount], by simp [warningCount]⟩
    | some err =>
      rw [build_inCluster_err env w c err h]
      exact ⟨[.inClusterConfig, .warningf warningFormat err, .clientConfig "" ""],
        by simp [emit_trace], by simp [warningCount], by simp⟩
  · have h2 : kubeconfigPath ≠ "" ∨ masterUrl ≠ "" := by
      by_contra hc
      push_neg at hc
      exact hb hc
    rw [build_explicit env masterUrl kubeconfigPath w h2]
    have h3 : ¬(kubeconfigPath = "" ∧ masterUrl = "" ∧ env.InClusterConfig.2 ≠ none) :=
      fun hc => hb ⟨hc.1, hc.2.1⟩
    exact ⟨[.clientConfig kubeconfigPath masterUrl], rfl, by simp [warningCount, h3],
      by simp [warningCount]⟩

/-- Witness of C9: outside a cluster with both arguments empty exactly one
warning is emitted. -/
theorem buildConfigFromFlags_warning_witness :
    ∃ calls, (buildConfigFromFlags bareEnv "" "" freshWorld).2.trace = freshWorld.trace ++ calls ∧
      warningCount calls = 1 := by
  obtain ⟨calls, h1, h2, _⟩ := buildConfigFromFlags_warning bareEnv "" "" freshWorld
  exact ⟨calls, h1, by rw [h2]; decide⟩

/-- C8: when `GenerateClientSetFromKubeConfig` returns nil, `getKubeConfig`
returned one config with a nil error, the `KubeConfig` field is that config,
`KubeClient`, `LitmusClient` and `DynamicClient` are the values returned by
the general, custom-resource and dynamic constructors applied to that same
config, and after the one config resolution the only library calls are those
three constructors, in that order, each on that config. -/
theorem GenerateClientSetFromKubeConfig_success (env : Env Config KC LC DC)
    (cs cs2 : ClientSets Config KC LC DC) (w w2 : World Config)
    (h : GenerateClientSetFromKubeConfig env cs w = (.returned none, cs2, w2)) :
    ∃ config w1, getKubeConfig env w = (.returned (config, none), w1) ∧
      cs2 = { KubeClient := (env.k8sNewForConfig config).1
              LitmusClient := (env.chaosNewForConfig config).1
              KubeConfig := config
              DynamicClient := (env.dynamicNewForConfig config).1 } ∧
      (env.k8sNewForConfig config).2 = none ∧
      (env.chaosNewForConfig config).2 = none ∧
      (env.dynamicNewForConfig config).2 = none ∧
      w2.trace = w1.trace ++
        [.k8sNewForConfig config, .chaosNewForConfig config, .dynamicNewForConfig config] := by
  rcases hg : getKubeConfig env w with ⟨o, w1⟩
  cases o with
  | panicked msg => rw [gen_panic env cs w w1 msg hg] at h; simp at h
  | exited code => rw [gen_exit env cs w w1 code hg] at h; simp at h
  | returned r =>
    obtain ⟨config, cerr⟩ := r
    cases cerr with
    | some e => rw [gen_config_err env cs w w1 config e hg] at h; simp at h
    | none =>
      rcases hk : env.k8sNewForConfig config with ⟨k, ke⟩
      cases ke with
      | some e => rw [gen_k8s_err env cs w w1 config k e hg hk] at h; simp [Wrapf] at h
      | none =>
        rcases hl : env.chaosNewForConfig config with ⟨l, le⟩
        cases le with
        | some e =>
          rw [gen_litmus_err env cs w w1 config k l e hg hk hl] at h; simp [Wrapf] at h
        | none =>
          rcases hd : env.dynamicNewForConfig config with ⟨d, de⟩
          cases de with
          | some e => rw [gen_dynamic_err env cs w w1 config k l d e hg hk hl hd] at h; simp at h
          | none =>
            rw [gen_ok env cs w w1 config k l d hg hk hl hd] at h
            simp only [Prod.mk.injEq, true_and] at h
            refine ⟨config, w1, rfl, ?_, ?_, ?_, ?_, ?_⟩
            · rw [hk, hl, hd]; exact h.1.symm
            · rw [hk]
            · rw [hl]
            · rw [hd]
            · rw [← h.2, three_emits]

/-- Witness of C8: with `--kubeconfig /etc/app/config` and three working
constructors the call returns nil and the receiver holds the loaded config
and the three clients built from it. -/
theorem GenerateClientSetFromKubeConfig_success_witness :
    ∃ config w1, getKubeConfig fileEnv freshWorld = (.returned (config, none), w1) ∧
      ({ KubeClient := some 1, LitmusClient := some 2, KubeConfig := some "/etc/app/config@",
         DynamicClient := some 3 } : ClientSets String Nat Nat Nat) =
        { KubeClient := (fileEnv.k8sNewForConfig config).1
          LitmusClient := (fileEnv.chaosNewForConfig config).1
          KubeConfig := config
          DynamicClient := (fileEnv.dynamicNewForConfig config).1 } ∧
      (fileEnv.k8sNewForConfig config).2 = none ∧
      (fileEnv.chaosNewForConfig config).2 = none ∧
      (fileEnv.dynamicNewForConfig config).2 = none ∧
      (GenerateClientSetFromKubeConfig fileEnv emptyClientSets freshWorld).2.2.trace = w1.trace ++
        [.k8sNewForConfig config, .chaosNewForConfig config, .dynamicNewForConfig config] :=
  GenerateClientSetFromKubeConfig_success fileEnv emptyClientSets _ freshWorld _ (by decide)

/-- C1: `GenerateClientSetFromKubeConfig` is all-or-nothing. For every pair
returned by config resolution and every result of the three constructors,
either the call returns nil, config resolution and all three constructors
returned a nil error, and the four fields of the receiver are the config just
resolved and the three clients just built from it, or the call returns a
non-nil error and the receiver is exactly what it was before the call. -/
theorem GenerateClientSetFromKubeConfig_all_or_nothing (env : Env Config KC LC DC)
    (cs : ClientSets Config KC LC DC) (w w1 : World Config)
    (config : Option Config) (cerr : Option GoError)
    (hg : getKubeConfig env w = (.returned (config, cerr), w1)) :
    ((GenerateClientSetFromKubeConfig env cs w).1 = .returned none ∧
      cerr = none ∧
      (env.k8sNewForConfig config).2 = none ∧
      (env.chaosNewForConfig config).2 = none ∧
      (env.dynamicNewForConfig config).2 = none ∧
      (GenerateClientSetFromKubeConfig env cs w).2.1 =
        { KubeClient := (env.k8sNewForConfig config).1
          LitmusClient := (env.chaosNewForConfig config).1
          KubeConfig := config
          DynamicClient := (env.dynamicNewForConfig config).1 }) ∨
    (∃ e, (GenerateClientSetFromKubeConfig env cs w).1 = .returned (some e) ∧
      (cerr ≠ none ∨ (env.k8sNewForConfig config).2 ≠ none ∨
        (env.chaosNewForConfig config).2 ≠ none ∨ (env.dynamicNewForConfig config).2 ≠ none) ∧
      (GenerateClientSetFromKubeConfig env cs w).2.1 = cs) := by
  cases cerr with
  | some e =>
    exact Or.inr ⟨e, by
      rw [gen_config_err env cs w w1 config e hg]; exact ⟨rfl, Or.inl (by simp), rfl⟩⟩
  | none =>
    rcases hk : env.k8sNewForConfig config with ⟨k, ke⟩
    cases ke with
    | some e =>
      exact Or.inr ⟨_, by
        rw [gen_k8s_err env cs w w1 config k e hg hk]
        exact ⟨rfl, Or.inr (Or.inl (by simp)), rfl⟩⟩
    | none =>
      rcases hl : env.chaosNewForConfig config with ⟨l, le⟩
      cases le with
      | some e =>
        exact Or.inr ⟨_, by
          rw [gen_litmus_err env cs w w1 config k l e hg hk hl]
          exact ⟨rfl, Or.inr (Or.inr (Or.inl (by simp))), rfl⟩⟩
      | none =>
        rcases hd : env.dynamicNewForConfig config with ⟨d, de⟩
        cases de with
        | some e =>
          exact Or.inr ⟨e, by
            rw [gen_dynamic_err env cs w w1 config k l d e hg hk hl hd]
            exact ⟨rfl, Or.inr (Or.inr (Or.inr (by simp))), rfl⟩⟩
        | none =>
          refine Or.inl ?_
          rw [gen_ok env cs w w1 config k l d hg hk hl hd]
          exact ⟨rfl, rfl, rfl, rfl, rfl, rfl⟩

/-- Witness of C1: with a failing custom-resource constructor the call
returns an error and the receiver keeps its four nil fields. -/
theorem GenerateClientSetFromKubeConfig_all_or_nothing_witness :
    ((GenerateClientSetFromKubeConfig litmusFailEnv emptyClientSets freshWorld).1 =
        .returned none ∧
      (none : Option GoError) = none ∧
      (litmusFailEnv.k8sNewForConfig (some "/etc/app/config@")).2 = none ∧
      (litmusFailEnv.chaosNewForConfig (some "/etc/app/config@")).2 = none ∧
      (litmusFailEnv.dynamicNewForConfig (some "/etc/app/config@")).2 = none ∧
      (GenerateClientSetFromKubeConfig litmusFailEnv emptyClientSets freshWorld).2.1 =
        { KubeClient := (litmusFailEnv.k8sNewForConfig (some "/etc/app/config@")).1
          LitmusClient := (litmusFailEnv.chaosNewForConfig (some "/etc/app/config@")).1
          KubeConfig := some "/etc/app/config@"
          DynamicClient := (litmusFailEnv.dynamicNewForConfig (some "/etc/app/config@")).1 }) ∨
    (∃ e, (GenerateClientSetFromKubeConfig litmusFailEnv emptyClientSets freshWorld).1 =
        .returned (some e) ∧
      ((none : Option GoError) ≠ none ∨
        (litmusFailEnv.k8sNewForConfig (some "/etc/app/config@")).2 ≠ none ∨
        (litmusFailEnv.chaosNewForConfig (some "/etc/app/config@")).2 ≠ none ∨
        (litmusFailEnv.dynamicNewForConfig (some "/etc/app/config@")).2 ≠ none) ∧
      (GenerateClientSetFromKubeConfig litmusFailEnv emptyClientSets freshWorld).2.1 =
        emptyClientSets) :=
  GenerateClientSetFromKubeConfig_all_or_nothing litmusFailEnv emptyClientSets freshWorld
    (getKubeConfig litmusFailEnv freshWorld).2 (some "/etc/app/config@") none (by decide)

/-- C2: after config resolution the stages run in the order general client,
custom-resource client, dynamic client, and the call stops at the first
failure. The call returns an error exactly when at least one of the four
stages fails. If config resolution fails its error is returned and no
constructor is called; if the general constructor fails, the error returned
wraps its error and it is the only constructor called; if the custom-resource
constructor is the first to fail, the error returned wraps its error and the
dynamic constructor is not called; if only the dynamic constructor fails its
error is returned after the three constructors were called in order. -/
theorem GenerateClientSetFromKubeConfig_first_failure (env : Env Config KC LC DC)
    (cs : ClientSets Config KC LC DC) (w w1 : World Config)
    (config : Option Config) (cerr : Option GoError)
    (hg : getKubeConfig env w = (.returned (config, cerr), w1)) :
    (∃ err, (GenerateClientSetFromKubeConfig env cs w).1 = .returned err ∧
      (err ≠ none ↔ cerr ≠ none ∨ (env.k8sNewForConfig config).2 ≠ none ∨
        (env.chaosNewForConfig config).2 ≠ none ∨ (env.dynamicNewForConfig config).2 ≠ none)) ∧
    (∀ e, cerr = some e →
      (GenerateClientSetFromKubeConfig env cs w).1 = .returned (some e) ∧
      (GenerateClientSetFromKubeConfig env cs w).2.2 = w1) ∧
    (∀ e, cerr = none → (env.k8sNewForConfig config).2 = some e →
      (GenerateClientSetFromKubeConfig env cs w).1 =
        .returned (some (.withStack (.withMessage e
          ("Unable to generate kubernetes clientSet, err: " ++ e.Error ++ ": ")))) ∧
      (GenerateClientSetFromKubeConfig env cs w).2.2.trace =
        w1.trace ++ [.k8sNewForConfig config]) ∧
    (∀ e, cerr = none → (env.k8sNewForConfig config).2 = none →
      (env.chaosNewForConfig config).2 = some e →
      (GenerateClientSetFromKubeConfig env cs w).1 =
        .returned (some (.withStack (.withMessage e
          ("Unable to create LitmusClientSet, err: " ++ e.Error)))) ∧
      (GenerateClientSetFromKubeConfig env cs w).2.2.trace =
        w1.trace ++ [.k8sNewForConfig config, .chaosNewForConfig config]) ∧
    (∀ e, cerr = none → (env.k8sNewForConfig config).2 = none →
      (env.chaosNewForConfig config).2 = none →
      (env.dynamicNewForConfig config).2 = some e →
      (GenerateClientSetFromKubeConfig env cs w).1 = .returned (some e) ∧
      (GenerateClientSetFromKubeConfig env cs w).2.2.trace =
        w1.trace ++
          [.k8sNewForConfig config, .chaosNewForConfig config, .dynamicNewForConfig config]) ∧
    (cerr = none → (env.k8sNewForConfig config).2 = none →
      (env.chaosNewForConfig config).2 = none →
      (env.dynamicNewForConfig config).2 = none →
      (GenerateClientSetFromKubeConfig env cs w).1 = .returned none ∧
      (GenerateClientSetFromKubeConfig env cs w).2.2.trace =
        w1.trace ++
          [.k8sNewForConfig config, .chaosNewForConfig config, .dynamicNewForConfig config]) := by
  cases cerr with
  | some e =>
    rw [gen_config_err env cs w w1 config e hg]
    simp
  | none =>
    rcases hk : env.k8sNewForConfig config with ⟨k, ke⟩
    cases ke with
    | some e =>
      rw [gen_k8s_err env cs w w1 config k e hg hk]
      simp [Wrapf, emit_trace]
    | none =>
      rcases hl : env.chaosNewForConfig config with ⟨l, le⟩
      cases le with
      | some e =>
        rw [gen_litmus_err env cs w w1 config k l e hg hk hl]
        simp [Wrapf, emit_trace]
      | none =>
        rcases hd : env.dynamicNewForConfig config with ⟨d, de⟩
        cases de with
        | some e =>
          rw [gen_dynamic_err env cs w w1 config k l d e hg hk hl hd]
          simp [emit_trace]
        | none =>
          rw [gen_ok env cs w w1 config k l d hg hk hl hd]
          simp [emit_trace]

/-- Witness of C2: with a failing general constructor the call returns the
wrapped error of that constructor, which is the only constructor called. -/
theorem GenerateClientSetFromKubeConfig_first_failure_witness :
    (GenerateClientSetFromKubeConfig k8sFailEnv emptyClientSets freshWorld).1 =
        .returned (some (.withStack (.withMessage (.leaf "bad host")
          ("Unable to generate kubernetes clientSet, err: " ++
            (GoError.leaf "bad host").Error ++ ": ")))) ∧
      (GenerateClientSetFromKubeConfig k8sFailEnv emptyClientSets freshWorld).2.2.trace =
        (getKubeConfig k8sFailEnv freshWorld).2.trace ++
          [.k8sNewForConfig (some "/etc/app/config@")] :=
  (GenerateClientSetFromKubeConfig_first_failure k8sFailEnv emptyClientSets freshWorld
    (getKubeConfig k8sFailEnv freshWorld).2 (some "/etc/app/config@") none
    (by decide)).2.2.1 (.leaf "bad host") rfl (by decide)

/-- C3: when config resolution and the general constructor succeed and the
custom-resource constructor fails with `e`, the error returned is a
`pkg/errors` wrapper directly around `e` (same root cause as `e`) whose
message is the Litmus annotation followed by the text of `e`: it begins with
`Unable to create LitmusClientSet`, it does not begin with the general
client's `Unable to generate kubernetes clientSet`, the full error text adds
nothing to the text of `e` but that annotation, the error differs from every
error the general stage can produce, and the dynamic constructor was never
called. -/
theorem GenerateClientSetFromKubeConfig_litmus_error (env : Env Config KC LC DC)
    (cs : ClientSets Config KC LC DC) (w w1 : World Config) (config : Option Config)
    (k : Option KC) (l : Option LC) (e : GoError)
    (hg : getKubeConfig env w = (.returned (config, none), w1))
    (hk : env.k8sNewForConfig config = (k, none))
    (hl : env.chaosNewForConfig config = (l, some e)) :
    ∃ err msg, (GenerateClientSetFromKubeConfig env cs w).1 = .returned (some err) ∧
      err = .withStack (.withMessage e msg) ∧
      err.rootCause = e.rootCause ∧
      msg = "Unable to create LitmusClientSet, err: " ++ e.Error ∧
      beginsWith msg "Unable to create LitmusClientSet" ∧
      ¬ beginsWith msg "Unable to generate kubernetes clientSet" ∧
      err.Error = "Unable to create LitmusClientSet, err: " ++ e.Error ++ ": " ++ e.Error ∧
      (∀ e2 : GoError, some err ≠
        Wrapf (some e2) ("Unable to generate kubernetes clientSet, err: " ++ e2.Error ++ ": ")) ∧
      (GenerateClientSetFromKubeConfig env cs w).2.2.trace =
        w1.trace ++ [.k8sNewForConfig config, .chaosNewForConfig config] := by
  refine ⟨_, _, ?_, rfl, ?_, rfl, ?_, ?_, ?_, ?_, ?_⟩
  · rw [gen_litmus_err env cs w w1 config k l e hg hk hl]
    rfl
  · simp [GoError.rootCause]
  · simp [beginsWith, String.data_append]
  · simp [beginsWith, String.data_append]
  · simp [GoError.Error]
  · intro e2 h
    simp only [Wrapf, Option.some.injEq, GoError.withStack.injEq, GoError.withMessage.injEq] at h
    have hd := congrArg String.data h.2
    simp [String.data_append] at hd
  · rw [gen_litmus_err env cs w w1 config k l e hg hk hl]
    exact two_emits _ _ _

/-- Witness of C3: the custom-resource constructor fails with `bad group`. -/
theorem GenerateClientSetFromKubeConfig_litmus_error_witness :
    ∃ err msg, (GenerateClientSetFromKubeConfig litmusFailEnv emptyClientSets freshWorld).1 =
        .returned (some err) ∧
      err = .withStack (.withMessage (.leaf "bad group") msg) ∧
      err.rootCause = (GoError.leaf "bad group").rootCause ∧
      msg = "Unable to create LitmusClientSet, err: " ++ (GoError.leaf "bad group").Error ∧
      beginsWith msg "Unable to create LitmusClientSet" ∧
      ¬ beginsWith msg "Unable to generate kubernetes clientSet" ∧
      err.Error = "Unable to create LitmusClientSet, err: " ++ (GoError.leaf "bad group").Error ++
        ": " ++ (GoError.leaf "bad group").Error ∧
      (∀ e2 : GoError, some err ≠
        Wrapf (some e2) ("Unable to generate kubernetes clientSet, err: " ++ e2.Error ++ ": ")) ∧
      (GenerateClientSetFromKubeConfig litmusFailEnv emptyClientSets freshWorld).2.2.trace =
        (getKubeConfig litmusFailEnv freshWorld).2.trace ++
          [.k8sNewForConfig (some "/etc/app/config@"),
            .chaosNewForConfig (some "/etc/app/config@")] :=
  GenerateClientSetFromKubeConfig_litmus_error litmusFailEnv emptyClientSets freshWorld
    (getKubeConfig litmusFailEnv freshWorld).2 (some "/etc/app/config@") (some 1) none
    (.leaf "bad group") (by decide) rfl rfl

/-- C4, as the claim states it, fails: an error of config resolution and an
error of the dynamic constructor are returned as they are, not inside a
wrapper. With no configuration source the loader's error `no configuration`
is the returned error, and with a failing dynamic constructor its error
`bad transport` is the returned error; neither is a `pkg/errors` wrapper
(neither has a cause) and neither text names a stage. -/
theorem GenerateClientSetFromKubeConfig_unwrapped_errors :
    bareEnv.ClientConfig "" "" = (none, some (.leaf "no configuration")) ∧
    (GenerateClientSetFromKubeConfig bareEnv emptyClientSets freshWorld).1 =
      .returned (some (.leaf "no configuration")) ∧
    (GoError.leaf "no configuration").Cause = none ∧
    (GoError.leaf "no configuration").Error = "no configuration" ∧
    dynamicFailEnv.dynamicNewForConfig (some "/etc/app/config@") =
      (none, some (.leaf "bad transport")) ∧
    (GenerateClientSetFromKubeConfig dynamicFailEnv emptyClientSets freshWorld).1 =
      .returned (some (.leaf "bad transport")) ∧
    (GoError.leaf "bad transport").Cause = none ∧
    (GoError.leaf "bad transport").Error = "bad transport" := by
  decide

/-- C4 as amended: when the general or the custom-resource stage fails with
`e`, the error returned is not `e` itself but a `pkg/errors` wrapper directly
around `e` whose message begins with that stage's annotation
(`Unable to generate kubernetes clientSet`, `Unable to create LitmusClientSet`);
an error of config resolution is returned unchanged. -/
theorem GenerateClientSetFromKubeConfig_stage_errors (env : Env Config KC LC DC)
    (cs : ClientSets Config KC LC DC) (w w1 : World Config)
    (config : Option Config) (cerr : Option GoError)
    (hg : getKubeConfig env w = (.returned (config, cerr), w1)) :
    (∀ e, cerr = some e →
      (GenerateClientSetFromKubeConfig env cs w).1 = .returned (some e)) ∧
    (∀ k e, cerr = none → env.k8sNewForConfig config = (k, some e) →
      ∃ msg, (GenerateClientSetFromKubeConfig env cs w).1 =
          .returned (some (.withStack (.withMessage e msg))) ∧
        GoError.withStack (.withMessage e msg) ≠ e ∧
        (GoError.withStack (.withMessage e msg)).Cause = some (.withMessage e msg) ∧
        (GoError.withMessage e msg).Cause = some e ∧
        beginsWith msg "Unable to generate kubernetes clientSet") ∧
    (∀ k l e, cerr = none → env.k8sNewForConfig config = (k, none) →
      env.chaosNewForConfig config = (l, some e) →
      ∃ msg, (GenerateClientSetFromKubeConfig env cs w).1 =
          .returned (some (.withStack (.withMessage e msg))) ∧
        GoError.withStack (.withMessage e msg) ≠ e ∧
        (GoError.withStack (.withMessage e msg)).Cause = some (.withMessage e msg) ∧
        (GoError.withMessage e msg).Cause = some e ∧
        beginsWith msg "Unable to create LitmusClientSet") := by
  refine ⟨?_, ?_, ?_⟩
  · intro e he
    subst he
    rw [gen_config_err env cs w w1 config e hg]
  · intro k e he hk
    subst he
    refine ⟨"Unable to generate kubernetes clientSet, err: " ++ e.Error ++ ": ", ?_,
      wrapper_ne e _, rfl, rfl, ?_⟩
    · rw [gen_k8s_err env cs w w1 config k e hg hk]
      rfl
    · simp [beginsWith, String.data_append]
  · intro k l e he hk hl
    subst he
    refine ⟨"Unable to create LitmusClientSet, err: " ++ e.Error, ?_,
      wrapper_ne e _, rfl, rfl, ?_⟩
    · rw [gen_litmus_err env cs w w1 config k l e hg hk hl]
      rfl
    · simp [beginsWith, String.data_append]

/-- Witness of amended C4: the general constructor fails with `bad host`. -/
theorem GenerateClientSetFromKubeConfig_stage_errors_witness :
    ∃ msg, (GenerateClientSetFromKubeConfig k8sFailEnv emptyClientSets freshWorld).1 =
        .returned (some (.withStack (.withMessage (.leaf "bad host") msg))) ∧
      GoError.withStack (.withMessage (.leaf "bad host") msg) ≠ .leaf "bad host" ∧
      (GoError.withStack (.withMessage (.leaf "bad host") msg)).Cause =
        some (.withMessage (.leaf "bad host") msg) ∧
      (GoError.withMessage (.leaf "bad host") msg).Cause = some (.leaf "bad host") ∧
      beginsWith msg "Unable to generate kubernetes clientSet" :=
  (GenerateClientSetFromKubeConfig_stage_errors k8sFailEnv emptyClientSets freshWorld
    (getKubeConfig k8sFailEnv freshWorld).2 (some "/etc/app/config@") none
    (by decide)).2.1 none (.leaf "bad host") rfl rfl

/-- C7, as the claim states it, fails: in a fresh process with
`--kubeconfig /etc/app/config` and working libraries the first call returns
nil and leaves `kubeconfig` registered on the process-wide flag set; the
second call, in the state the first one left, does not return nil: it panics
on the flag being defined again. -/
theorem GenerateClientSetFromKubeConfig_second_call :
    (GenerateClientSetFromKubeConfig fileEnv emptyClientSets freshWorld).1 = .returned none ∧
    (GenerateClientSetFromKubeConfig fileEnv emptyClientSets freshWorld).2.2.formal =
      ["kubeconfig"] ∧
    (GenerateClientSetFromKubeConfig fileEnv emptyClientSets
      (GenerateClientSetFromKubeConfig fileEnv emptyClientSets freshWorld).2.2).1 =
      .panicked "flag redefined: kubeconfig" := by
  decide

/-- C7 as amended: `GenerateClientSetFromKubeConfig` is single-use in a
process. A call that returns (nil or an error) started with the `kubeconfig`
flag not registered and leaves it registered on the process-wide flag set;
every later call in the state it left panics at the registration of the flag,
before any configuration is resolved or any client is built, and leaves its
receiver and the process state as they were. -/
theorem GenerateClientSetFromKubeConfig_single_use (env : Env Config KC LC DC)
    (cs cs1 : ClientSets Config KC LC DC) (w w1 : World Config) (err : Option GoError)
    (h : GenerateClientSetFromKubeConfig env cs w = (.returned err, cs1, w1)) :
    "kubeconfig" ∉ w.formal ∧ "kubeconfig" ∈ w1.formal ∧
    ∀ cs2, GenerateClientSetFromKubeConfig env cs2 w1 =
      (.panicked "flag redefined: kubeconfig", cs2, w1) := by
  obtain ⟨hfree, hformal⟩ := gen_returned_formal env cs cs1 w w1 err h
  have hm : "kubeconfig" ∈ w1.formal := by rw [hformal]; simp
  exact ⟨hfree, hm, fun cs2 => gen_panic env cs2 w1 w1 _ (getKube_panic env w1 hm)⟩

/-- Witness of amended C7: after the first call in a fresh process, a second
call on any receiver panics and changes nothing. -/
theorem GenerateClientSetFromKubeConfig_single_use_witness :
    "kubeconfig" ∉ freshWorld.formal ∧
    "kubeconfig" ∈ (GenerateClientSetFromKubeConfig fileEnv emptyClientSets freshWorld).2.2.formal ∧
    ∀ cs2, GenerateClientSetFromKubeConfig fileEnv cs2
        (GenerateClientSetFromKubeConfig fileEnv emptyClientSets freshWorld).2.2 =
      (.panicked "flag redefined: kubeconfig", cs2,
        (GenerateClientSetFromKubeConfig fileEnv emptyClientSets freshWorld).2.2) :=
  GenerateClientSetFromKubeConfig_single_use fileEnv emptyClientSets
    (GenerateClientSetFromKubeConfig fileEnv emptyClientSets freshWorld).2.1 freshWorld
    (GenerateClientSetFromKubeConfig fileEnv emptyClientSets freshWorld).2.2 none (by decide)

/-- C10: once the flag is registered and the command line parsed with value
`v` for `--kubeconfig`, `getKubeConfig` returns what `buildConfigFromFlags`
returns for the master URL `""` and the path `v`; among the library calls of
`GenerateClientSetFromKubeConfig` the in-cluster configuration occurs exactly
when `v` is empty, and every call of the loader has the explicit path `v` and
an empty server override. -/
theorem getKubeConfig_master_url_empty (env : Env Config KC LC DC)
    (cs : ClientSets Config KC LC DC) (w : World Config) (v : String)
    (hf : "kubeconfig" ∉ w.formal) (hp : env.flagParse = .value v) :
    getKubeConfig env w =
      (.returned (buildConfigFromFlags env "" v { w with formal := "kubeconfig" :: w.formal }).1,
        (buildConfigFromFlags env "" v { w with formal := "kubeconfig" :: w.formal }).2) ∧
    ∃ calls, (GenerateClientSetFromKubeConfig env cs w).2.2.trace = w.trace ++ calls ∧
      (Event.inClusterConfig ∈ calls ↔ v = "") ∧
      (∀ p s, Event.clientConfig p s ∈ calls → p = v ∧ s = "") := by
  have hg := getKube_value env w v hf hp
  refine ⟨hg, ?_⟩
  obtain ⟨c1, ht1, hin1, hcc1⟩ :=
    build_calls env "" v { w with formal := "kubeconfig" :: w.formal }
  obtain ⟨c2, ht2, hin2, hcc2⟩ := gen_calls env cs w
  refine ⟨c1 ++ c2, ?_, ?_, ?_⟩
  · rw [ht2, hg]
    simp only []
    rw [ht1, List.append_assoc]
  · simp [hin1, hin2]
  · intro p s hm
    rcases List.mem_append.mp hm with hm | hm
    · exact hcc1 p s hm
    · exact absurd hm (hcc2 p s)

/-- Witness of C10: with `--kubeconfig /etc/app/config` the in-cluster
configuration is not among the calls and the one loader call has an empty
server override. -/
theorem getKubeConfig_master_url_empty_witness :
    ∃ calls, (GenerateClientSetFromKubeConfig fileEnv emptyClientSets freshWorld).2.2.trace =
        freshWorld.trace ++ calls ∧
      (Event.inClusterConfig ∈ calls ↔ "/etc/app/config" = "") ∧
      (∀ p s, Event.clientConfig p s ∈ calls → p = "/etc/app/config" ∧ s = "") :=
  (getKubeConfig_master_url_empty fileEnv emptyClientSets freshWorld "/etc/app/config"
    (by decide) rfl).2

end Lemmas

end Clients
